import Mathlib

/-!
# ImGui test-engine example application: state model and frame driver

A shallow embedding of `src/main.cpp`:

* `AppState` and `AppState.Reset` (main.cpp lines 14-30),
* `ShowTestWindow` (lines 93-158), one call of which is one frame; the results
  that the widget library hands back during that frame are the `FrameInput`,
* the six scripts of `RegisterTests` (lines 36-90),
* `main` (lines 160-307) as a function from an environment (arguments,
  window-system answers, per-frame widget results, test-queue answers) to the
  exit code, the final state and the ordered list of library calls.

Conventions: `char` is a byte held as a `Nat`; `int` is an `Int` (no arithmetic
is done on the `int` fields, they are only assigned constants and loop indices,
and the loop bound `(int)state.items.size()` is the list length, a vector of
2^31 strings or more being outside the range of the model); `float` is the
IEEE-754 binary32 bit pattern.
-/

namespace TestApp

/-! ## binary32 values -/

/-- An IEEE-754 binary32 value, held as its 32-bit pattern. -/
structure F32 where
  bits : Nat
deriving DecidableEq, Repr

namespace F32

/-- The sign bit (bit 31). -/
def sign (x : F32) : Nat := (x.bits / 2 ^ 31) % 2

/-- The biased exponent (bits 23 to 30). -/
def expo (x : F32) : Nat := (x.bits / 2 ^ 23) % 2 ^ 8

/-- The fraction field (bits 0 to 22). -/
def frac (x : F32) : Nat := x.bits % 2 ^ 23

/-- The rational value of a finite binary32, `none` for infinities and NaN. -/
def toRat (x : F32) : Option ℚ :=
  if x.expo = 255 then none
  else
    let m : ℚ := if x.expo = 0 then (x.frac : ℚ) / 2 ^ 23 else 1 + (x.frac : ℚ) / 2 ^ 23
    let e : ℤ := if x.expo = 0 then -126 else (x.expo : ℤ) - 127
    some ((if x.sign = 1 then -1 else 1) * m * (2 : ℚ) ^ e)

/-- The literal `0.5f`: sign 0, biased exponent 126, fraction 0. -/
def half : F32 := ⟨0x3F000000⟩

end F32

/-! ## Application state (main.cpp lines 14-30) -/

/-- Size of the `text_input` array, `sizeof(state.text_input)`. -/
def TEXT_INPUT_SIZE : Nat := 256

/-- The struct `AppState`. `text_input` is the 256-byte array, one `Nat` per
byte; `items` is the `std::vector<std::string>`. -/
structure AppState where
  text_input : List Nat
  checkbox_value : Bool
  slider_value : F32
  combo_selection : Int
  selected_item : Int
  items : List String
  show_demo_window : Bool
deriving DecidableEq, Repr

/-- The three strings the constructor puts in `items`. -/
def defaultItems : List String := ["Item 1", "Item 2", "Item 3"]

/-- The default member initialisers: what `AppState app_state;` constructs.
`char text_input[256] = ""` zero-fills the whole array. -/
def AppState.init : AppState where
  text_input := List.replicate TEXT_INPUT_SIZE 0
  checkbox_value := false
  slider_value := F32.half
  combo_selection := 0
  selected_item := -1
  items := defaultItems
  show_demo_window := false

/-- A `char` array read as a NUL-terminated string: the bytes before the first
zero byte. -/
def cstr (buf : List Nat) : List Nat := buf.takeWhile (fun c => c != 0)

/-- The body of `AppState::Reset` (lines 23-29): five assignments, the first one
to element 0 of the array only. -/
def AppState.Reset (s : AppState) : AppState :=
  { s with
    text_input := s.text_input.set 0 0
    checkbox_value := false
    slider_value := F32.half
    combo_selection := 0
    selected_item := -1 }

/-! ## Widget library calls

The widgets are ImGui library functions; their code is not part of the
repository. Each is a function of the bound value and of what the library
reports for the current frame. -/

/-- Modelled from the spec: `ImGui::Checkbox(label, bool* v)`, the library
widget behind "a labeled checkbox bound to `checkbox_value`", a "boolean flag,
toggled by a checkbox widget": when the box is pressed in this frame the bound
flag is negated, otherwise it is left alone. -/
def Checkbox (pressed : Bool) (v : Bool) : Bool :=
  if pressed then !v else v

/-- Modelled from the spec: `ImGui::MenuItem(label, shortcut, bool* p_selected)`,
the library widget behind "View→toggle-demo-window (toggles `show_demo_window`
directly)": activation negates the bound flag. -/
def MenuItemToggle (activated : Bool) (p_selected : Bool) : Bool :=
  if activated then !p_selected else p_selected

/-- Modelled from the spec: `ImGui::InputText(label, buf, buf_size)`, the library
widget behind "a labeled text-entry field bound to `text_input`", a
"bounded-length text buffer" whose "length ≤ its fixed capacity": when the field
is edited to `v` in this frame, the first `buf_size - 1` bytes of `v` followed by
a NUL byte are stored at the start of `buf`; the bytes of `buf` after them stay. -/
def InputText (buf : List Nat) (buf_size : Nat) (edit : Option (List Nat)) : List Nat :=
  match edit with
  | none => buf
  | some v =>
    let stored := v.take (buf_size - 1) ++ [0]
    stored ++ buf.drop stored.length

/-- Modelled from the spec: `ImGui::SliderFloat(label, float* v, v_min, v_max)`,
the library widget behind "a labeled slider bound to `slider_value`": when the
slider is moved in this frame the bound value becomes the value it reports. -/
def SliderFloat (edit : Option F32) (v : F32) : F32 :=
  match edit with
  | none => v
  | some x => x

/-- Modelled from the spec: `ImGui::Combo(label, int* current_item, items,
items_count)`, the library widget behind "a labeled combo box bound to
`combo_selection`, over a fixed 3-item label set": picking option `i` of the
`items_count` options stores `i` in the bound index. -/
def Combo (pick : Option Nat) (items_count : Nat) (current_item : Int) : Int :=
  match pick with
  | none => current_item
  | some i => if i < items_count then (i : Int) else current_item

/-- `IM_ARRAYSIZE(combo_items)` for the array of line 121. -/
def combo_items : List String := ["Option 1", "Option 2", "Option 3"]

/-- What the widget library reports during one call of `ShowTestWindow`, one
field per library call whose result the function reads, in call order. -/
structure FrameInput where
  /-- The result of `BeginMenuBar()`. -/
  menu_bar : Bool
  /-- The result of `BeginMenu("File")`. -/
  menu_file : Bool
  /-- The result of `MenuItem("Reset")`. -/
  item_reset : Bool
  /-- The result of `MenuItem("Exit")`. -/
  item_exit : Bool
  /-- The result of `BeginMenu("View")`. -/
  menu_view : Bool
  /-- Whether `MenuItem("Demo Window", ...)` is activated. -/
  item_demo : Bool
  /-- The new content when the text field is edited. -/
  text_edit : Option (List Nat)
  /-- Whether the checkbox is pressed. -/
  checkbox_press : Bool
  /-- The new value when the slider is moved. -/
  slider_edit : Option F32
  /-- The option picked in the combo popup. -/
  combo_pick : Option Nat
  /-- The result of `BeginListBox("##listbox")`. -/
  listbox : Bool
  /-- The result of the call `Selectable(...)` made for index `i`. -/
  selectable : Nat → Bool
  /-- The result of `Button("Reset")`. -/
  button_reset : Bool
  /-- The result of `Button("Test Button")`. -/
  button_test : Bool
  /-- Whether `ShowDemoWindow` clears the flag it is given (window closed). -/
  demo_close : Bool

/-- A frame in which the window is drawn and nothing is activated. -/
def FrameInput.idle : FrameInput where
  menu_bar := true
  menu_file := false
  item_reset := false
  item_exit := false
  menu_view := false
  item_demo := false
  text_edit := none
  checkbox_press := false
  slider_edit := none
  combo_pick := none
  listbox := true
  selectable := fun _ => false
  button_reset := false
  button_test := false
  demo_close := false

/-! ## The frame function (main.cpp lines 93-158) -/

/-- The loop of lines 127-132: for `i` from 0 below the number of items, the
entry whose `Selectable` call returns true assigns `selected_item = i`. -/
def listBoxLoop (selectable : Nat → Bool) (count : Nat) (selected_item : Int) : Int :=
  (List.range count).foldl (fun sel i => if selectable i then (i : Int) else sel) selected_item

/-- Lines 97-112 of `ShowTestWindow`: the menu bar. File→Reset calls `Reset()`,
File→Exit has an empty body, View→Demo Window is bound to `show_demo_window`. -/
def showMenuBar (state : AppState) (inp : FrameInput) : AppState :=
  if inp.menu_bar then
    let state :=
      if inp.menu_file then
        if inp.item_reset then state.Reset else state
      else state
    if inp.menu_view then
      { state with show_demo_window := MenuItemToggle inp.item_demo state.show_demo_window }
    else state
  else state

/-- Lines 117-122 of `ShowTestWindow`: text field, checkbox, slider and combo,
each bound to its field. -/
def showInputWidgets (state : AppState) (inp : FrameInput) : AppState :=
  { state with
    text_input := InputText state.text_input TEXT_INPUT_SIZE inp.text_edit
    checkbox_value := Checkbox inp.checkbox_press state.checkbox_value
    slider_value := SliderFloat inp.slider_edit state.slider_value
    combo_selection := Combo inp.combo_pick combo_items.length state.combo_selection }

/-- Lines 126-134 of `ShowTestWindow`: the list box. -/
def showListBox (state : AppState) (inp : FrameInput) : AppState :=
  if inp.listbox then
    { state with
      selected_item := listBoxLoop inp.selectable state.items.length state.selected_item }
  else state

/-- Lines 138-144 of `ShowTestWindow`: the "Reset" button calls `Reset()`, the
"Test Button" has an empty body. -/
def showButtons (state : AppState) (inp : FrameInput) : AppState :=
  if inp.button_reset then state.Reset else state

/-- Lines 155-157 of `ShowTestWindow`: the demo window, drawn only when the flag
is set, may clear the flag it is handed. -/
def showDemoWindow (state : AppState) (inp : FrameInput) : AppState :=
  if state.show_demo_window then
    { state with show_demo_window := if inp.demo_close then false else state.show_demo_window }
  else state

/-- The function `ShowTestWindow`: the statements that read or write the state,
in source order. Drawing-only calls (separators, status text, `SameLine`,
`End...`) have no effect on the state and are left out. -/
def ShowTestWindow (state : AppState) (inp : FrameInput) : AppState :=
  let state := showMenuBar state inp
  let state := showInputWidgets state inp
  let state := showListBox state inp
  let state := showButtons state inp
  showDemoWindow state inp

/-! ## The registered scripts (main.cpp lines 36-90)

The test context (`ImGuiTestContext`) belongs to the test-engine library. Each
of its operations used by the scripts makes the engine feed synthetic input
until the named widget is activated; here it is the frame in which that widget
reports the activation. -/

/-- Modelled from the spec: `ctx->ItemInputValue("Text Input", v)` of the
test-engine library, "setting the text field to `v` via the text-entry widget":
the frame in which the text field reports the new content `v`. -/
def itemInputValue_TextInput (v : List Nat) (_ : AppState) : FrameInput :=
  { FrameInput.idle with text_edit := some v }

/-- Modelled from the spec: `ctx->ItemClick("Test Checkbox")` of the test-engine
library, a "toggle of the checkbox": the frame in which the checkbox reports a
press. -/
def itemClick_TestCheckbox (_ : AppState) : FrameInput :=
  { FrameInput.idle with checkbox_press := true }

/-- Modelled from the spec: `ctx->ItemClick("Reset")` of the test-engine library
under the reference "Test Window", a click on the "Reset" button: the frame in
which `Button("Reset")` returns true. -/
def itemClick_Reset (_ : AppState) : FrameInput :=
  { FrameInput.idle with button_reset := true }

/-- Modelled from the spec: `ctx->ItemClick("Combo")` of the test-engine library:
the click that opens the combo popup; no option is picked in that frame. -/
def itemClick_Combo (_ : AppState) : FrameInput :=
  FrameInput.idle

/-- Modelled from the spec: a click of the test-engine library on the option of
the open combo popup at index `i`, "selecting combo option at index `i`". -/
def itemClick_ComboOption (i : Nat) (_ : AppState) : FrameInput :=
  { FrameInput.idle with combo_pick := some i }

/-- Modelled from the spec: a click of the test-engine library on the list-box
entry at index `i`, "clicking an entry": the frame in which the `Selectable`
call made for index `i`, and no other, returns true. -/
def itemClick_ListIndex (i : Nat) (_ : AppState) : FrameInput :=
  { FrameInput.idle with selectable := fun j => j == i }

/-- Modelled from the spec: a click of the test-engine library on a widget found
by its label among `labels`: the position of the first entry carrying the label,
when there is one. -/
def findLabel (labels : List String) (label : String) : Option Nat :=
  labels.indexOf? label

/-- Modelled from the spec: `ctx->MenuClick("File/Reset")` of the test-engine
library, "click a menu path": the frame in which the File menu is open and its
Reset item is activated. -/
def menuClick_File_Reset (_ : AppState) : FrameInput :=
  { FrameInput.idle with menu_file := true, item_reset := true }

/-- The widgets of the test window that a script can address, each with the
source line that draws it. The slider is left out: no script addresses it, and
what a click does to it depends on where the pointer lands. -/
inductive Widget where
  /-- The field `InputText("Text Input", ...)`, line 117. -/
  | textInput
  /-- The box `Checkbox("Test Checkbox", ...)`, line 118. -/
  | checkbox
  /-- The box `Combo("Combo", ...)`, line 122. -/
  | combo
  /-- The option `combo_items[i]` in the popup of the combo, line 121. -/
  | comboOption (i : Nat)
  /-- The entry `Selectable(state.items[i].c_str(), ...)`, line 129. -/
  | listEntry (i : Nat)
  /-- The button `Button("Reset")`, line 138. -/
  | resetButton
  /-- The button `Button("Test Button")`, line 142. -/
  | testButton
  /-- The item `MenuItem("Reset")` of `BeginMenu("File")`, lines 98-99. -/
  | menuFileReset
  /-- The item `MenuItem("Exit")` of `BeginMenu("File")`, lines 98 and 102. -/
  | menuFileExit
  /-- The item `MenuItem("Demo Window", ...)` of `BeginMenu("View")`, lines 107-108. -/
  | menuViewDemo
deriving DecidableEq, Repr

/-- The text after the last `/` of `rest`, with `acc` holding, reversed, what was
read since the last `/`. -/
def lastComponent : List Char → List Char → List Char
  | acc, [] => acc.reverse
  | acc, c :: rest =>
    if c = Char.ofNat 47 then lastComponent [] rest else lastComponent (c :: acc) rest

/-- Modelled from the spec: how the test-engine library reads a widget reference
such as `"##listbox/Item 2"`. For the spec a widget is "a single interactive UI
element (button, slider, etc.) identified by a display label", and scripts are
"matched against widget labels": the label a reference names is its last
`/`-separated component. The components before it name windows of the library
(`//##Combo_01`, `##listbox`); the spec gives them no meaning and they are not
interpreted. -/
def refLabel (ref : String) : String :=
  String.mk (lastComponent [] ref.toList)

/-- Modelled from the spec: the lookup, by the test-engine library, of the
widget of the window body that carries the display label `label`, the widgets
being tried in the order `ShowTestWindow` draws them; `items` is `state.items`.
`none` when no widget carries the label. -/
def locateLabel (items : List String) (label : String) : Option Widget :=
  if label = "Text Input" then some Widget.textInput
  else if label = "Test Checkbox" then some Widget.checkbox
  else if label = "Combo" then some Widget.combo
  else
    match findLabel combo_items label with
    | some i => some (Widget.comboOption i)
    | none =>
      match findLabel items label with
      | some i => some (Widget.listEntry i)
      | none =>
        if label = "Reset" then some Widget.resetButton
        else if label = "Test Button" then some Widget.testButton
        else none

/-- Modelled from the spec: the lookup, by the test-engine library, of a menu
item by its menu path ("click a menu path"), the paths being those of the menu
bar of lines 97-112. -/
def locateMenu (ref : String) : Option Widget :=
  if ref = "File/Reset" then some Widget.menuFileReset
  else if ref = "File/Exit" then some Widget.menuFileExit
  else if ref = "View/Demo Window" then some Widget.menuViewDemo
  else none

/-- Modelled from the spec: a click of the test-engine library on a located
widget, as the frame in which that widget reports the activation. A click on
the text field or on the combo box only gives focus or opens the popup. -/
def clickFrame (w : Widget) (s : AppState) : FrameInput :=
  match w with
  | Widget.textInput => FrameInput.idle
  | Widget.checkbox => itemClick_TestCheckbox s
  | Widget.combo => itemClick_Combo s
  | Widget.comboOption i => itemClick_ComboOption i s
  | Widget.listEntry i => itemClick_ListIndex i s
  | Widget.resetButton => itemClick_Reset s
  | Widget.testButton => { FrameInput.idle with button_test := true }
  | Widget.menuFileReset => menuClick_File_Reset s
  | Widget.menuFileExit => { FrameInput.idle with menu_file := true, item_exit := true }
  | Widget.menuViewDemo => { FrameInput.idle with menu_view := true, item_demo := true }

/-- The operations of the test context that the scripts call, with the
arguments of the call. -/
inductive Op where
  /-- The call `ctx->ItemInputValue(ref, v)`, with `v` as bytes. -/
  | ItemInputValue (ref : String) (v : List Nat)
  /-- The call `ctx->ItemClick(ref)`. -/
  | ItemClick (ref : String)
  /-- The call `ctx->MenuClick(ref)`. -/
  | MenuClick (ref : String)
deriving DecidableEq, Repr

/-- The widget an operation acts on in state `s`, if the reference names one. -/
def Op.locate (s : AppState) : Op → Option Widget
  | Op.ItemInputValue ref _ => locateLabel s.items (refLabel ref)
  | Op.ItemClick ref => locateLabel s.items (refLabel ref)
  | Op.MenuClick ref => locateMenu ref

/-- Modelled from the spec: what the test-engine library makes the widgets
report in the frame of the operation: the located widget reports the new text
or the click; when no widget is located nothing is activated. -/
def Op.frame (s : AppState) (op : Op) : FrameInput :=
  match op, op.locate s with
  | Op.ItemInputValue _ v, some Widget.textInput => itemInputValue_TextInput v s
  | Op.ItemInputValue _ _, _ => FrameInput.idle
  | Op.ItemClick _, some w => clickFrame w s
  | Op.MenuClick _, some w => clickFrame w s
  | _, none => FrameInput.idle

/-- The comparisons of the check macros of the scripts, each over one field of
the state behind `g_app_state`. -/
inductive Check where
  /-- The macro call `IM_CHECK_STR_EQ(g_app_state->text_input, lit)`. -/
  | STR_EQ_text_input (lit : List Nat)
  /-- The macro call `IM_CHECK_EQ(g_app_state->checkbox_value, b)`. -/
  | EQ_checkbox_value (b : Bool)
  /-- The macro call `IM_CHECK_EQ(g_app_state->slider_value, x)`. -/
  | EQ_slider_value (x : F32)
  /-- The macro call `IM_CHECK_EQ(g_app_state->combo_selection, n)`. -/
  | EQ_combo_selection (n : Int)
  /-- The macro call `IM_CHECK_EQ(g_app_state->selected_item, n)`. -/
  | EQ_selected_item (n : Int)
deriving DecidableEq, Repr

/-- One statement of a `TestFunc`. -/
inductive Step where
  /-- The call `ctx->SetRef(window)`: the window that relative references start
  from. Widgets being found by label, it is recorded and has no other effect. -/
  | SetRef (window : String)
  /-- An operation on a widget. -/
  | op (o : Op)
  /-- A check macro. -/
  | check (c : Check)
deriving DecidableEq, Repr

/-- The bytes of the literal "Hello Test". -/
def helloTest : List Nat := [72, 101, 108, 108, 111, 32, 84, 101, 115, 116]

/-- Test 1, "Basic Input" (lines 40-45). -/
def test_BasicInput : List Step :=
  [ Step.SetRef "Test Window",
    Step.op (Op.ItemInputValue "Text Input" helloTest),
    Step.check (Check.STR_EQ_text_input helloTest) ]

/-- Test 2, "Checkbox" (lines 48-55). -/
def test_Checkbox : List Step :=
  [ Step.SetRef "Test Window",
    Step.op (Op.ItemClick "Test Checkbox"),
    Step.check (Check.EQ_checkbox_value true),
    Step.op (Op.ItemClick "Test Checkbox"),
    Step.check (Check.EQ_checkbox_value false) ]

/-- Test 3, "Button" (lines 58-64). The copy `initial` of line 61 is never read. -/
def test_Button : List Step :=
  [ Step.SetRef "Test Window",
    Step.op (Op.ItemClick "Reset"),
    Step.check (Check.EQ_slider_value F32.half) ]

/-- Test 4, "Combo" (lines 67-73). -/
def test_Combo : List Step :=
  [ Step.SetRef "Test Window",
    Step.op (Op.ItemClick "Combo"),
    Step.op (Op.ItemClick "//##Combo_01/Option 2"),
    Step.check (Check.EQ_combo_selection 1) ]

/-- Test 5, "List" (lines 76-81). -/
def test_List : List Step :=
  [ Step.SetRef "Test Window",
    Step.op (Op.ItemClick "##listbox/Item 2"),
    Step.check (Check.EQ_selected_item 1) ]

/-- Test 6, "Menu" (lines 84-89). -/
def test_Menu : List Step :=
  [ Step.SetRef "Test Window",
    Step.op (Op.MenuClick "File/Reset"),
    Step.check (Check.EQ_checkbox_value false) ]

/-- The scripts in the order `RegisterTests` registers them. -/
def RegisterTests : List (String × List Step) :=
  [ ("Basic Input", test_BasicInput), ("Checkbox", test_Checkbox), ("Button", test_Button),
    ("Combo", test_Combo), ("List", test_List), ("Menu", test_Menu) ]

/-- The library calls `main` makes, named after the C functions. -/
inductive Call where
  | glfwInit
  | fprintf_stderr (msg : String)
  | glfwWindowHint (hint : String)
  | glfwCreateWindow
  | glfwTerminate
  | glfwMakeContextCurrent
  | glfwSwapInterval
  | ImGui_CreateContext
  | ImGui_ImplGlfw_InitForOpenGL
  | ImGui_ImplOpenGL3_Init
  | ImGui_StyleColorsDark
  | ImGuiTestEngine_CreateContext
  | ImGuiTestEngine_Start
  | ImGuiTestEngine_RegisterTest (name : String)
  | ImGuiTestEngine_QueueTests
  | printf (msg : String)
  | glfwPollEvents
  | ImGui_ImplOpenGL3_NewFrame
  | ImGui_ImplGlfw_NewFrame
  | ImGui_NewFrame
  | ShowTestWindow
  | ImGuiTestEngine_ShowTestEngineWindows
  | ImGuiTestEngine_PostSwap
  | ImGui_Render
  | glfwGetFramebufferSize
  | glViewport
  | glClearColor
  | glClear
  | ImGui_ImplOpenGL3_RenderDrawData
  | glfwSwapBuffers
  | ImGuiTestEngine_IsTestQueueEmpty
  | glfwWindowShouldClose
  | ImGuiTestEngine_Stop
  | ImGui_ImplOpenGL3_Shutdown
  | ImGui_ImplGlfw_Shutdown
  | ImGui_DestroyContext
  | ImGuiTestEngine_DestroyContext
  | glfwDestroyWindow
deriving DecidableEq, Repr

/-- Everything outside the program that a run of `main` depends on. -/
structure Env where
  /-- The arguments `argv[1]` to `argv[argc-1]`. -/
  args : List String
  /-- Whether `glfwInit()` succeeds. -/
  glfwInit : Bool
  /-- Whether `glfwCreateWindow(...)` returns a window. -/
  glfwCreateWindow : Bool
  /-- The answer of `glfwWindowShouldClose(window)` before frame `k`. -/
  glfwWindowShouldClose : Nat → Bool
  /-- What the widgets report during frame `k` (user input, or the synthetic
  input of the test engine). -/
  frame : Nat → FrameInput
  /-- The answer of `ImGuiTestEngine_IsTestQueueEmpty(engine)` at the end of
  frame `k`. -/
  queueEmpty : Nat → Bool

/-- The argument loop of lines 165-168; the result is `(run_tests, headless)`. -/
def parseArgs (args : List String) : Bool × Bool :=
  args.foldl
    (fun (flags : Bool × Bool) arg =>
      (if arg = "--test" then true else flags.1, if arg = "--headless" then true else flags.2))
    (false, false)

/-- What a main loop leaves behind: the state, the calls it made and the number
of frames it ran. -/
structure LoopResult where
  state : AppState
  calls : List Call
  frames : Nat
deriving Repr

/-- The bound of the loop of line 234. -/
def HEADLESS_FRAMES : Nat := 100

/-- The calls of one iteration of the loop of lines 234-255. -/
def headlessFrameCalls : List Call :=
  [ Call.glfwPollEvents, Call.ImGui_ImplOpenGL3_NewFrame, Call.ImGui_ImplGlfw_NewFrame,
    Call.ImGui_NewFrame, Call.ShowTestWindow, Call.ImGuiTestEngine_PostSwap, Call.ImGui_Render,
    Call.ImGui_ImplOpenGL3_RenderDrawData, Call.glfwSwapBuffers,
    Call.ImGuiTestEngine_IsTestQueueEmpty ]

/-- The loop `for (int frame = 0; frame < 100; frame++)` of lines 234-255, entered
with `remaining = 100 - frame` iterations left: each iteration runs one frame,
then `continue`s when the test queue is not empty and `break`s when it is. -/
def headlessLoop (env : Env) : (remaining : Nat) → (frame : Nat) → AppState → LoopResult
  | 0, _, state => { state := state, calls := [], frames := 0 }
  | remaining + 1, frame, state =>
    let state := ShowTestWindow state (env.frame frame)
    if !env.queueEmpty frame then
      let r := headlessLoop env remaining (frame + 1) state
      { r with calls := headlessFrameCalls ++ r.calls, frames := r.frames + 1 }
    else
      { state := state, calls := headlessFrameCalls, frames := 1 }

/-- The calls of one iteration of the loop of lines 260-285, after the loop test. -/
def interactiveFrameCalls (headless : Bool) : List Call :=
  [ Call.glfwPollEvents, Call.ImGui_ImplOpenGL3_NewFrame, Call.ImGui_ImplGlfw_NewFrame,
    Call.ImGui_NewFrame, Call.ShowTestWindow ] ++
  (if !headless then [Call.ImGuiTestEngine_ShowTestEngineWindows] else []) ++
  [ Call.ImGuiTestEngine_PostSwap, Call.ImGui_Render, Call.glfwGetFramebufferSize,
    Call.glViewport, Call.glClearColor, Call.glClear, Call.ImGui_ImplOpenGL3_RenderDrawData,
    Call.glfwSwapBuffers ]

/-- The loop `while (!glfwWindowShouldClose(window))` of lines 260-285. It runs
for as long as the window stays open, so it is given `fuel`, the number of loop
tests it may make; `none` means the fuel ran out with the window still open. -/
def interactiveLoop (env : Env) (headless : Bool) :
    (fuel : Nat) → (frame : Nat) → AppState → Option LoopResult
  | 0, _, _ => none
  | fuel + 1, frame, state =>
    if !env.glfwWindowShouldClose frame then
      match interactiveLoop env headless fuel (frame + 1) (ShowTestWindow state (env.frame frame)) with
      | none => none
      | some r =>
        some { r with
          calls := Call.glfwWindowShouldClose :: interactiveFrameCalls headless ++ r.calls
          frames := r.frames + 1 }
    else
      some { state := state, calls := [Call.glfwWindowShouldClose], frames := 0 }

/-- The calls of lines 177-183: the window hints, with the extra one of
`--headless`. -/
def configureCalls (headless : Bool) : List Call :=
  [ Call.glfwWindowHint "GLFW_CONTEXT_VERSION_MAJOR", Call.glfwWindowHint "GLFW_CONTEXT_VERSION_MINOR",
    Call.glfwWindowHint "GLFW_OPENGL_PROFILE" ] ++
  (if headless then [Call.glfwWindowHint "GLFW_VISIBLE"] else [])

/-- The calls of lines 193-226: context, backends, style, test engine, the six
registrations of `RegisterTests`, and the queueing when `--test` was given. -/
def setupCalls (run_tests : Bool) : List Call :=
  [ Call.glfwMakeContextCurrent, Call.glfwSwapInterval, Call.ImGui_CreateContext,
    Call.ImGui_ImplGlfw_InitForOpenGL, Call.ImGui_ImplOpenGL3_Init, Call.ImGui_StyleColorsDark,
    Call.ImGuiTestEngine_CreateContext, Call.ImGuiTestEngine_Start ] ++
  RegisterTests.map (fun t => Call.ImGuiTestEngine_RegisterTest t.1) ++
  (if run_tests then [Call.ImGuiTestEngine_QueueTests] else [])

/-- The calls of lines 288-304. -/
def cleanupCalls : List Call :=
  [ Call.ImGuiTestEngine_Stop, Call.ImGui_ImplOpenGL3_Shutdown, Call.ImGui_ImplGlfw_Shutdown,
    Call.ImGui_DestroyContext, Call.ImGuiTestEngine_DestroyContext, Call.glfwDestroyWindow,
    Call.glfwTerminate ]

/-- What a finished run of `main` amounts to: the returned exit code, the calls
made in order, the frames run, and the application state at the end (`none` when
`main` returned before constructing it). -/
structure Outcome where
  code : Int
  calls : List Call
  frames : Nat
  state : Option AppState
deriving Repr

/-- The function `main`. `fuel` bounds the loop tests of the
interactive loop; `none` means that loop was still running when the fuel ran
out. -/
def main (fuel : Nat) (env : Env) : Option Outcome :=
  -- lines 162-168
  let run_tests := (parseArgs env.args).1
  let headless := (parseArgs env.args).2
  -- lines 171-174
  if !env.glfwInit then
    some { code := -1, frames := 0, state := none
           calls := [Call.glfwInit, Call.fprintf_stderr "Failed to initialize GLFW\n"] }
  else
    let calls := Call.glfwInit :: configureCalls headless ++ [Call.glfwCreateWindow]
    -- lines 186-191
    if !env.glfwCreateWindow then
      some { code := -1, frames := 0, state := none
             calls := calls ++ [Call.fprintf_stderr "Failed to create window\n", Call.glfwTerminate] }
    else
      let calls := calls ++ setupCalls run_tests
      let app_state := AppState.init
      -- lines 229-286
      let loop : Option LoopResult :=
        if headless && run_tests then
          let r := headlessLoop env HEADLESS_FRAMES 0 app_state
          some { r with
            calls := Call.printf "Running tests in headless mode...\n" :: r.calls ++
              [Call.printf "Tests completed!\n"] }
        else
          interactiveLoop env headless fuel 0 app_state
      match loop with
      | none => none
      | some r =>
        -- lines 288-306
        some { code := 0, frames := r.frames, state := some r.state
               calls := calls ++ r.calls ++ cleanupCalls }

/-! ## Vocabulary of the properties -/

/-- The range the data model gives `selected_item`: -1 for "none selected", or an
index into `items`. -/
def selectedInRange (s : AppState) : Prop :=
  -1 ≤ s.selected_item ∧ s.selected_item ≤ (s.items.length : Int) - 1

/-- The state after the frames whose widget reports are `inputs`, in order. -/
def runFrames (inputs : List FrameInput) (s : AppState) : AppState :=
  inputs.foldl ShowTestWindow s

instance (s : AppState) : Decidable (selectedInRange s) := by
  unfold selectedInRange
  infer_instance

/-- An environment in which initialisation succeeds, no flag is given and the
window asks to close at the first loop test. -/
def envCloseAtOnce : Env where
  args := []
  glfwInit := true
  glfwCreateWindow := true
  glfwWindowShouldClose := fun _ => true
  frame := fun _ => FrameInput.idle
  queueEmpty := fun _ => true

/-- An environment of a batch run: both flags given, and the test queue found
empty for the first time at the end of frame 2. -/
def envBatch : Env where
  args := ["--test", "--headless"]
  glfwInit := true
  glfwCreateWindow := true
  glfwWindowShouldClose := fun _ => false
  frame := fun _ => FrameInput.idle
  queueEmpty := fun k => decide (2 ≤ k)

/-! ## Properties of `Reset` -/

/-- The literal `0.5f` denotes the rational one half. -/
theorem F32.half_toRat : F32.half.toRat = some (1 / 2) := by
  norm_num [F32.toRat, F32.half, F32.expo, F32.frac, F32.sign]

/-- Writing a NUL byte at index 0 makes the array read as the empty string. -/
theorem cstr_set_zero (buf : List Nat) : cstr (buf.set 0 0) = [] := by
  cases buf <;> simp [cstr]

/-- C1: for every AppState, after `Reset()` the text buffer read as a
NUL-terminated string is empty, `checkbox_value` is false, `slider_value` is the
float 0.5 (whose value is the rational 1/2), `combo_selection` is 0 and
`selected_item` is -1. -/
theorem Reset_yields_defaults (s : AppState) :
    cstr s.Reset.text_input = [] ∧
    s.Reset.checkbox_value = false ∧
    (s.Reset.slider_value = F32.half ∧ s.Reset.slider_value.toRat = some (1 / 2)) ∧
    s.Reset.combo_selection = 0 ∧
    s.Reset.selected_item = -1 := by
  refine ⟨cstr_set_zero s.text_input, rfl, ⟨rfl, ?_⟩, rfl, rfl⟩
  show F32.half.toRat = some (1 / 2)
  exact F32.half_toRat

/-- C2: for every AppState, `Reset()` leaves `items` and `show_demo_window`
exactly as they were. -/
theorem Reset_keeps_items_and_demo_flag (s : AppState) :
    s.Reset.items = s.items ∧ s.Reset.show_demo_window = s.show_demo_window :=
  ⟨rfl, rfl⟩

/-! ## Properties of one frame -/

/-- A string without NUL byte that fits the buffer is read back unchanged after
`InputText` has stored it. -/
theorem cstr_InputText (buf v : List Nat) (cap : Nat) (hnul : ∀ c ∈ v, c ≠ 0)
    (hlen : v.length ≤ cap - 1) : cstr (InputText buf cap (some v)) = v := by
  have htake : v.take (cap - 1) = v := List.take_of_length_le hlen
  simp only [InputText, cstr, htake, List.append_assoc]
  rw [List.takeWhile_append_of_pos]
  · simp
  · intro c hc
    simpa using hnul c hc

/-- Storing a string that fits, terminator included, keeps the size of the array. -/
theorem length_InputText (buf v : List Nat) (cap : Nat) (hlen : v.length ≤ cap - 1)
    (hcap : 0 < cap) (hbuf : buf.length = cap) :
    (InputText buf cap (some v)).length = cap := by
  have htake : v.take (cap - 1) = v := List.take_of_length_le hlen
  simp only [InputText, htake, List.length_append, List.length_drop, List.length_singleton, hbuf]
  omega

/-- The list-box loop with exactly the entry `i` clicked, `i` below the count,
ends with `i` selected. -/
theorem listBoxLoop_click (i count : Nat) (sel : Int) (hi : i < count) :
    listBoxLoop (fun j => j == i) count sel = (i : Int) := by
  unfold listBoxLoop
  induction count generalizing sel with
  | zero => omega
  | succ n ih =>
    rw [List.range_succ, List.foldl_append]
    by_cases hn : i = n
    · subst hn; simp
    · have hlt : i < n := by omega
      have hne : ¬ n = i := fun h => hn h.symm
      have hrec := ih sel hlt
      simp only [beq_iff_eq] at hrec
      simp [hrec, hne]

/-- The frame of a text entry stores the entered text with `InputText`. -/
theorem frame_text_input (s : AppState) (v : List Nat) :
    (ShowTestWindow s (itemInputValue_TextInput v s)).text_input
      = InputText s.text_input TEXT_INPUT_SIZE (some v) := by
  by_cases hd : s.show_demo_window <;>
    simp [ShowTestWindow, showMenuBar, showInputWidgets, showListBox, showButtons,
      showDemoWindow, itemInputValue_TextInput, FrameInput.idle, hd]

/-- The frame of a checkbox click negates `checkbox_value`. -/
theorem frame_checkbox (s : AppState) :
    (ShowTestWindow s (itemClick_TestCheckbox s)).checkbox_value = !s.checkbox_value := by
  by_cases hd : s.show_demo_window <;>
    simp [ShowTestWindow, showMenuBar, showInputWidgets, showListBox, showButtons,
      showDemoWindow, itemClick_TestCheckbox, FrameInput.idle, Checkbox, hd]

/-- The frame of a pick of combo option `i`, one of the three, leaves
`combo_selection = i`. -/
theorem frame_combo_option (s : AppState) (i : Nat) (hi : i < 3) :
    (ShowTestWindow s (itemClick_ComboOption i s)).combo_selection = (i : Int) := by
  have hc : i < combo_items.length := by simpa [combo_items] using hi
  by_cases hd : s.show_demo_window <;>
    simp [ShowTestWindow, showMenuBar, showInputWidgets, showListBox, showButtons,
      showDemoWindow, itemClick_ComboOption, FrameInput.idle, hd, Combo, hc]

/-- The frame of a click on list entry `i`, an index into `items`, leaves
`selected_item = i`. -/
theorem frame_list_index (s : AppState) (i : Nat) (hi : i < s.items.length) :
    (ShowTestWindow s (itemClick_ListIndex i s)).selected_item = (i : Int) := by
  by_cases hd : s.show_demo_window <;>
    simp [ShowTestWindow, showMenuBar, showInputWidgets, showListBox, showButtons,
      showDemoWindow, itemClick_ListIndex, FrameInput.idle, hd, listBoxLoop_click i _ _ hi]

/-- C3: for every AppState and every byte string `v` without NUL byte and of at
most 255 bytes, the frame in which the "Text Input" field is set to `v` leaves
`text_input` reading, as a NUL-terminated string, exactly `v`; the stored string
with its terminator fits the 256 bytes, and the array keeps its size. -/
theorem text_input_set (s : AppState) (v : List Nat) (hnul : ∀ c ∈ v, c ≠ 0)
    (hlen : v.length ≤ 255) :
    cstr (ShowTestWindow s (itemInputValue_TextInput v s)).text_input = v ∧
    (cstr (ShowTestWindow s (itemInputValue_TextInput v s)).text_input).length + 1
      ≤ TEXT_INPUT_SIZE ∧
    (s.text_input.length = TEXT_INPUT_SIZE →
      (ShowTestWindow s (itemInputValue_TextInput v s)).text_input.length = TEXT_INPUT_SIZE) := by
  have hfit : v.length ≤ TEXT_INPUT_SIZE - 1 := by simpa [TEXT_INPUT_SIZE] using hlen
  have htxt := frame_text_input s v
  rw [htxt, cstr_InputText _ _ _ hnul hfit]
  refine ⟨rfl, ?_, ?_⟩
  · simp only [TEXT_INPUT_SIZE]; omega
  · intro hbuf
    exact length_InputText _ _ _ hfit (by decide) hbuf

/-- The script value "Hello Test" typed into the default state. -/
theorem text_input_set_witness :
    cstr (ShowTestWindow AppState.init (itemInputValue_TextInput helloTest AppState.init)).text_input
        = helloTest ∧
    (cstr (ShowTestWindow AppState.init
        (itemInputValue_TextInput helloTest AppState.init)).text_input).length + 1
      ≤ TEXT_INPUT_SIZE ∧
    (AppState.init.text_input.length = TEXT_INPUT_SIZE →
      (ShowTestWindow AppState.init
        (itemInputValue_TextInput helloTest AppState.init)).text_input.length = TEXT_INPUT_SIZE) :=
  text_input_set AppState.init helloTest (by decide) (by decide)

/-- C4: for every AppState, one click on "Test Checkbox" leaves `checkbox_value`
the negation of what it was, and a second click brings back the original value. -/
theorem checkbox_click_involution (s : AppState) :
    (ShowTestWindow s (itemClick_TestCheckbox s)).checkbox_value = !s.checkbox_value ∧
    (ShowTestWindow (ShowTestWindow s (itemClick_TestCheckbox s))
      (itemClick_TestCheckbox (ShowTestWindow s (itemClick_TestCheckbox s)))).checkbox_value
      = s.checkbox_value := by
  refine ⟨frame_checkbox s, ?_⟩
  rw [frame_checkbox, frame_checkbox, Bool.not_not]

/-- C5: for every AppState and every index `i` below `items.size()`, the frame in
which the list-box entry at index `i` is clicked leaves `selected_item = i`; and
for every `i` in 0, 1, 2 the frame in which combo option `i` is picked leaves
`combo_selection = i`. -/
theorem click_sets_selection (s : AppState) (i : Nat) :
    (i < s.items.length →
      (ShowTestWindow s (itemClick_ListIndex i s)).selected_item = (i : Int)) ∧
    (i < 3 → (ShowTestWindow s (itemClick_ComboOption i s)).combo_selection = (i : Int)) :=
  ⟨fun hi => frame_list_index s i hi, fun hi => frame_combo_option s i hi⟩

/-- The index 1 of the scripts, "Item 2" and "Option 2", on the default state. -/
theorem click_sets_selection_witness :
    (ShowTestWindow AppState.init (itemClick_ListIndex 1 AppState.init)).selected_item = 1 ∧
    (ShowTestWindow AppState.init (itemClick_ComboOption 1 AppState.init)).combo_selection = 1 :=
  ⟨(click_sets_selection AppState.init 1).1 (by decide),
    (click_sets_selection AppState.init 1).2 (by decide)⟩

/-! ## The range of `selected_item` -/

/-- The list-box loop either keeps the selection or ends on an index below the
count. -/
theorem listBoxLoop_range (f : Nat → Bool) (count : Nat) (sel : Int) :
    listBoxLoop f count sel = sel ∨
      (0 ≤ listBoxLoop f count sel ∧ listBoxLoop f count sel < (count : Int)) := by
  unfold listBoxLoop
  induction count with
  | zero => left; rfl
  | succ n ih =>
    rw [List.range_succ, List.foldl_append]
    by_cases hf : f n = true
    · right; simp [hf]
    · rcases ih with h | ⟨h0, h1⟩
      · left; simpa [hf] using h
      · right
        simp only [List.foldl_cons, List.foldl_nil, hf, Bool.false_eq_true, if_false]
        exact ⟨h0, by push_cast; omega⟩

/-- No frame changes `items`. -/
theorem ShowTestWindow_items (s : AppState) (inp : FrameInput) :
    (ShowTestWindow s inp).items = s.items := by
  have hm : ∀ t : AppState, (showMenuBar t inp).items = t.items := by
    intro t; unfold showMenuBar; split_ifs <;> rfl
  have hi : ∀ t : AppState, (showInputWidgets t inp).items = t.items := fun _ => rfl
  have hl : ∀ t : AppState, (showListBox t inp).items = t.items := by
    intro t; unfold showListBox; split_ifs <;> rfl
  have hb : ∀ t : AppState, (showButtons t inp).items = t.items := by
    intro t; unfold showButtons; split_ifs <;> rfl
  have hd : ∀ t : AppState, (showDemoWindow t inp).items = t.items := by
    intro t; unfold showDemoWindow; split_ifs <;> rfl
  simp only [ShowTestWindow, hm, hi, hl, hb, hd]

/-- A frame leaves `selected_item` as it was, or at -1, or at an index into
`items`. -/
theorem ShowTestWindow_selected_item (s : AppState) (inp : FrameInput) :
    (ShowTestWindow s inp).selected_item = s.selected_item ∨
    (ShowTestWindow s inp).selected_item = -1 ∨
    (0 ≤ (ShowTestWindow s inp).selected_item ∧
      (ShowTestWindow s inp).selected_item < (s.items.length : Int)) := by
  have hm : ∀ t : AppState, (showMenuBar t inp).items = t.items ∧
      ((showMenuBar t inp).selected_item = t.selected_item ∨
        (showMenuBar t inp).selected_item = -1) := by
    intro t; unfold showMenuBar; split_ifs <;> simp [AppState.Reset]
  have hi : ∀ t : AppState, (showInputWidgets t inp).items = t.items ∧
      (showInputWidgets t inp).selected_item = t.selected_item := fun _ => ⟨rfl, rfl⟩
  have hl : ∀ t : AppState, (showListBox t inp).items = t.items ∧
      ((showListBox t inp).selected_item = t.selected_item ∨
        (0 ≤ (showListBox t inp).selected_item ∧
          (showListBox t inp).selected_item < (t.items.length : Int))) := by
    intro t; unfold showListBox
    split_ifs
    · exact ⟨rfl, listBoxLoop_range inp.selectable t.items.length t.selected_item⟩
    · exact ⟨rfl, Or.inl rfl⟩
  have hb : ∀ t : AppState, (showButtons t inp).selected_item = t.selected_item ∨
      (showButtons t inp).selected_item = -1 := by
    intro t; unfold showButtons; split_ifs <;> simp [AppState.Reset]
  have hd : ∀ t : AppState, (showDemoWindow t inp).selected_item = t.selected_item := by
    intro t; unfold showDemoWindow; split_ifs <;> rfl
  simp only [ShowTestWindow, hd]
  have h1 := hm s
  have h2 := hi (showMenuBar s inp)
  have h3 := hl (showInputWidgets (showMenuBar s inp) inp)
  have h4 := hb (showListBox (showInputWidgets (showMenuBar s inp) inp) inp)
  rw [h2.1, h1.1] at h3
  omega

/-- One frame keeps `selected_item` in range. -/
theorem ShowTestWindow_selectedInRange (s : AppState) (inp : FrameInput)
    (h : selectedInRange s) : selectedInRange (ShowTestWindow s inp) := by
  unfold selectedInRange at *
  rw [ShowTestWindow_items]
  have := ShowTestWindow_selected_item s inp
  omega

/-- Any number of frames keeps `selected_item` in range. -/
theorem runFrames_selectedInRange (inputs : List FrameInput) (s : AppState)
    (h : selectedInRange s) : selectedInRange (runFrames inputs s) := by
  unfold runFrames
  induction inputs generalizing s with
  | nil => exact h
  | cons inp rest ih => exact ih _ (ShowTestWindow_selectedInRange s inp h)

/-- C6: in every state reached from the default-constructed AppState by any
finite sequence of frames, whatever the widgets report in them (resets from the
menu or the button, list clicks, combo picks, checkbox presses, text edits,
slider moves, demo-window toggles, in any combination),
`-1 <= selected_item <= items.size() - 1`; and from any state, every frame
leaves `selected_item` as it was, or at -1, or at an index into `items`, so no
write is out of range. -/
theorem selected_item_always_in_range (inputs : List FrameInput) :
    (-1 ≤ (runFrames inputs AppState.init).selected_item ∧
      (runFrames inputs AppState.init).selected_item
        ≤ ((runFrames inputs AppState.init).items.length : Int) - 1) ∧
    (∀ (s : AppState) (inp : FrameInput),
      (ShowTestWindow s inp).items = s.items ∧
      ((ShowTestWindow s inp).selected_item = s.selected_item ∨
        (-1 ≤ (ShowTestWindow s inp).selected_item ∧
          (ShowTestWindow s inp).selected_item ≤ ((ShowTestWindow s inp).items.length : Int) - 1)))
    := by
  constructor
  · exact runFrames_selectedInRange inputs AppState.init (by unfold selectedInRange; decide)
  · intro s inp
    refine ⟨ShowTestWindow_items s inp, ?_⟩
    rw [ShowTestWindow_items]
    have := ShowTestWindow_selected_item s inp
    omega

/-! ## The batch loop -/

/-- The frame count of the batch loop entered with `n` iterations left at frame
index `frame`: at most `n`, at least 1 when `n` is positive, one more than the
offset of the first frame that ends with an empty queue, and `n` when there is
no such frame. -/
theorem headlessLoop_frames (env : Env) (n frame : Nat) (s : AppState) :
    (headlessLoop env n frame s).frames ≤ n ∧
    (0 < n → 1 ≤ (headlessLoop env n frame s).frames) ∧
    (∀ k, k < n → env.queueEmpty (frame + k) = true →
      (∀ j, j < k → env.queueEmpty (frame + j) = false) →
      (headlessLoop env n frame s).frames = k + 1) ∧
    ((∀ j, j < n → env.queueEmpty (frame + j) = false) →
      (headlessLoop env n frame s).frames = n) := by
  induction n generalizing frame s with
  | zero => simp [headlessLoop]
  | succ n ih =>
    by_cases hq : env.queueEmpty frame = true
    · have hfr : (headlessLoop env (n + 1) frame s).frames = 1 := by simp [headlessLoop, hq]
      rw [hfr]
      refine ⟨by omega, fun _ => le_refl 1, ?_, ?_⟩
      · intro k _ _ hbefore
        cases k with
        | zero => rfl
        | succ k =>
          have := hbefore 0 (by omega)
          simp [hq] at this
      · intro hnone
        have := hnone 0 (by omega)
        simp [hq] at this
    · have hq' : env.queueEmpty frame = false := by simpa using hq
      have hfr : (headlessLoop env (n + 1) frame s).frames
          = (headlessLoop env n (frame + 1) (ShowTestWindow s (env.frame frame))).frames + 1 := by
        simp [headlessLoop, hq']
      obtain ⟨h1, _, h3, h4⟩ := ih (frame + 1) (ShowTestWindow s (env.frame frame))
      rw [hfr]
      refine ⟨by omega, fun _ => by omega, ?_, ?_⟩
      · intro k hk hempty hbefore
        cases k with
        | zero => simp [hq'] at hempty
        | succ k =>
          have hk' : k < n := by omega
          have he : env.queueEmpty (frame + 1 + k) = true := by
            rw [show frame + 1 + k = frame + (k + 1) by omega]; exact hempty
          have hb : ∀ j, j < k → env.queueEmpty (frame + 1 + j) = false := by
            intro j hj
            rw [show frame + 1 + j = frame + (j + 1) by omega]
            exact hbefore (j + 1) (by omega)
          rw [h3 k hk' he hb]
      · intro hnone
        have hb : ∀ j, j < n → env.queueEmpty (frame + 1 + j) = false := by
          intro j hj
          rw [show frame + 1 + j = frame + (j + 1) by omega]
          exact hnone (j + 1) (by omega)
        rw [h4 hb]

/-- The frame count of the batch loop is the number of its `ShowTestWindow`
calls. -/
theorem headlessLoop_calls (env : Env) (n frame : Nat) (s : AppState) :
    (headlessLoop env n frame s).calls.count Call.ShowTestWindow
      = (headlessLoop env n frame s).frames := by
  have hone : headlessFrameCalls.count Call.ShowTestWindow = 1 := by decide
  induction n generalizing frame s with
  | zero => simp [headlessLoop]
  | succ n ih =>
    by_cases hq : env.queueEmpty frame = true
    · simp [headlessLoop, hq, hone]
    · have hq' : env.queueEmpty frame = false := by simpa using hq
      simp only [headlessLoop, hq', Bool.not_false, if_true, List.count_append, hone, ih]
      omega

/-- In batch mode `main` returns, whatever the fuel, with the frame count of the
batch loop. -/
theorem main_batch (fuel : Nat) (env : Env) (hinit : env.glfwInit = true)
    (hwin : env.glfwCreateWindow = true) (hargs : parseArgs env.args = (true, true)) :
    ∃ out, main fuel env = some out ∧ out.code = 0 ∧
      out.frames = (headlessLoop env HEADLESS_FRAMES 0 AppState.init).frames := by
  simp [main, hinit, hwin, hargs]

/-- C7: whatever the test queue answers, the batch loop runs at least 1 and at
most 100 frames (counted by the field `frames`, which is the number of calls of
`ShowTestWindow`); it stops right after the first frame at whose end the queue is
empty, so after one frame when the queue is empty from the start, and after
exactly 100 frames when no frame below 100 ends with an empty queue; and `main`,
run with both `--test` and `--headless` after a successful initialisation,
returns with that frame count. -/
theorem batch_loop_frame_bound (env : Env) (s : AppState) :
    (1 ≤ (headlessLoop env HEADLESS_FRAMES 0 s).frames ∧
      (headlessLoop env HEADLESS_FRAMES 0 s).frames ≤ 100) ∧
    (headlessLoop env HEADLESS_FRAMES 0 s).calls.count Call.ShowTestWindow
      = (headlessLoop env HEADLESS_FRAMES 0 s).frames ∧
    (∀ k, k < 100 → env.queueEmpty k = true → (∀ j, j < k → env.queueEmpty j = false) →
      (headlessLoop env HEADLESS_FRAMES 0 s).frames = k + 1) ∧
    (env.queueEmpty 0 = true → (headlessLoop env HEADLESS_FRAMES 0 s).frames = 1) ∧
    ((∀ j, j < 100 → env.queueEmpty j = false) →
      (headlessLoop env HEADLESS_FRAMES 0 s).frames = 100) ∧
    (∀ fuel, env.glfwInit = true → env.glfwCreateWindow = true →
      parseArgs env.args = (true, true) →
      ∃ out, main fuel env = some out ∧
        out.frames = (headlessLoop env HEADLESS_FRAMES 0 AppState.init).frames) := by
  obtain ⟨h1, h2, h3, h4⟩ := headlessLoop_frames env HEADLESS_FRAMES 0 s
  have hpos : 0 < HEADLESS_FRAMES := by decide
  refine ⟨⟨h2 hpos, h1⟩, headlessLoop_calls env _ 0 s, ?_, ?_, ?_, ?_⟩
  · intro k hk hempty hbefore
    exact h3 k hk (by simpa using hempty) (by simpa using hbefore)
  · intro hempty
    exact h3 0 hpos (by simpa using hempty) (by intro j hj; omega)
  · intro hnone
    exact h4 (by simpa using hnone)
  · intro fuel hinit hwin hargs
    obtain ⟨out, ho, _, hf⟩ := main_batch fuel env hinit hwin hargs
    exact ⟨out, ho, hf⟩

/-- A batch run whose queue is first found empty at the end of frame 2 runs
three frames, and `main` returns with that count. -/
theorem batch_loop_frame_bound_witness :
    (headlessLoop envBatch HEADLESS_FRAMES 0 AppState.init).frames = 3 ∧
    ∃ out, main 0 envBatch = some out ∧
      out.frames = (headlessLoop envBatch HEADLESS_FRAMES 0 AppState.init).frames :=
  ⟨(batch_loop_frame_bound envBatch AppState.init).2.2.1 2 (by decide) (by decide) (by decide),
    (batch_loop_frame_bound envBatch AppState.init).2.2.2.2.2 0 rfl rfl (by decide)⟩

/-! ## Exit code and shutdown order of `main` -/

/-- The interactive loop ends once the window asks to close: with the request
seen at loop test `frame + k`, fuel `k + 1` is enough. -/
theorem interactiveLoop_returns (env : Env) (headless : Bool) (k frame : Nat) (s : AppState)
    (hclose : env.glfwWindowShouldClose (frame + k) = true) :
    ∃ r, interactiveLoop env headless (k + 1) frame s = some r := by
  induction k generalizing frame s with
  | zero =>
    have h0 : env.glfwWindowShouldClose frame = true := by simpa using hclose
    simp [interactiveLoop, h0]
  | succ k ih =>
    by_cases hc : env.glfwWindowShouldClose frame = true
    · simp [interactiveLoop, hc]
    · have hc' : env.glfwWindowShouldClose frame = false := by simpa using hc
      have hnext : env.glfwWindowShouldClose (frame + 1 + k) = true := by
        rw [show frame + 1 + k = frame + (k + 1) by omega]; exact hclose
      obtain ⟨r, hr⟩ := ih (frame + 1) (ShowTestWindow s (env.frame frame)) hnext
      rw [interactiveLoop]
      simp [hc', hr]

/-- The exit code of a returned `main` is -1 on either initialisation failure
and 0 otherwise. -/
theorem main_code (fuel : Nat) (env : Env) (out : Outcome) (h : main fuel env = some out) :
    out.code = if env.glfwInit = true ∧ env.glfwCreateWindow = true then 0 else -1 := by
  unfold main at h
  by_cases hinit : env.glfwInit = true
  · by_cases hwin : env.glfwCreateWindow = true
    · simp only [hinit, hwin, Bool.not_true, Bool.false_eq_true, if_false] at h
      split at h
      · exact absurd h (by simp)
      · simp only [Option.some.injEq] at h
        subst h; simp [hinit, hwin]
    · simp only [hinit, hwin, Bool.not_true, Bool.false_eq_true, if_false, Bool.not_false,
        if_true, Option.some.injEq] at h
      subst h; simp [hinit, hwin]
  · simp only [hinit, Bool.not_false, if_true, Option.some.injEq] at h
    subst h; simp [hinit]

/-- C8: whenever `main` returns, its exit code is -1 exactly when `glfwInit` or
`glfwCreateWindow` failed and 0 exactly when both succeeded, whatever the
arguments, the widget reports of the frames and the test queue (hence whatever
the scripted assertions did); and `main` does return when initialisation fails,
in batch mode (both flags given), and in interactive mode once the window asks
to close. -/
theorem main_exit_code (env : Env) :
    (∀ fuel out, main fuel env = some out →
      (out.code = -1 ↔ (env.glfwInit = false ∨ env.glfwCreateWindow = false)) ∧
      (out.code = 0 ↔ (env.glfwInit = true ∧ env.glfwCreateWindow = true))) ∧
    ((env.glfwInit = false ∨ env.glfwCreateWindow = false ∨
        parseArgs env.args = (true, true) ∨ ∃ k, env.glfwWindowShouldClose k = true) →
      ∃ fuel out, main fuel env = some out) := by
  constructor
  · intro fuel out h
    have hcode := main_code fuel env out h
    by_cases hinit : env.glfwInit = true <;> by_cases hwin : env.glfwCreateWindow = true <;>
      simp [hcode, hinit, hwin]
  · intro hcases
    by_cases hinit : env.glfwInit = true
    · by_cases hwin : env.glfwCreateWindow = true
      · by_cases hbatch : ((parseArgs env.args).2 && (parseArgs env.args).1) = true
        · refine ⟨0, ?_⟩
          simp [main, hinit, hwin, hbatch]
        · have hnb : ((parseArgs env.args).2 && (parseArgs env.args).1) = false := by
            simpa using hbatch
          rcases hcases with h | h | h | ⟨k, hk⟩
          · simp [hinit] at h
          · simp [hwin] at h
          · simp [h] at hbatch
          · obtain ⟨r, hr⟩ := interactiveLoop_returns env (parseArgs env.args).2 k 0
              AppState.init (by simpa using hk)
            refine ⟨k + 1, ?_⟩
            simp [main, hinit, hwin, hnb, hr]
      · refine ⟨0, ?_⟩
        simp [main, hinit, hwin]
    · refine ⟨0, ?_⟩
      simp [main, hinit]

/-- An interactive run closed at once returns 0; the same run with window
creation failing returns -1. -/
theorem main_exit_code_witness :
    (∃ fuel out, main fuel envCloseAtOnce = some out ∧ out.code = 0) ∧
    (∃ fuel out, main fuel { envCloseAtOnce with glfwCreateWindow := false } = some out ∧
      out.code = -1) := by
  constructor
  · obtain ⟨fuel, out, h⟩ :=
      (main_exit_code envCloseAtOnce).2 (Or.inr (Or.inr (Or.inr ⟨0, rfl⟩)))
    exact ⟨fuel, out, h, ((main_exit_code envCloseAtOnce).1 fuel out h).2.2 ⟨rfl, rfl⟩⟩
  · obtain ⟨fuel, out, h⟩ :=
      (main_exit_code { envCloseAtOnce with glfwCreateWindow := false }).2 (Or.inr (Or.inl rfl))
    exact ⟨fuel, out, h,
      ((main_exit_code { envCloseAtOnce with glfwCreateWindow := false }).1 fuel out h).1.2
        (Or.inr rfl)⟩

/-- Every call of the batch loop is one of the per-frame calls. -/
theorem headlessLoop_calls_mem (env : Env) (n frame : Nat) (s : AppState) :
    ∀ c ∈ (headlessLoop env n frame s).calls, c ∈ headlessFrameCalls := by
  induction n generalizing frame s with
  | zero => simp [headlessLoop]
  | succ n ih =>
    intro c hc
    by_cases hq : env.queueEmpty frame = true
    · simpa [headlessLoop, hq] using hc
    · have hq' : env.queueEmpty frame = false := by simpa using hq
      simp only [headlessLoop, hq', Bool.not_false, if_true, List.mem_append] at hc
      rcases hc with h | h
      · exact h
      · exact ih _ _ c h

/-- Every call of the interactive loop is the loop test or one of the per-frame
calls. -/
theorem interactiveLoop_calls_mem (env : Env) (headless : Bool) (fuel frame : Nat)
    (s : AppState) (r : LoopResult) (h : interactiveLoop env headless fuel frame s = some r) :
    ∀ c ∈ r.calls, c = Call.glfwWindowShouldClose ∨ c ∈ interactiveFrameCalls headless := by
  induction fuel generalizing frame s r with
  | zero => simp [interactiveLoop] at h
  | succ fuel ih =>
    rw [interactiveLoop] at h
    by_cases hc : env.glfwWindowShouldClose frame = true
    · simp only [hc, Bool.not_true, Bool.false_eq_true, if_false, Option.some.injEq] at h
      subst h
      intro c hmem
      left; simpa using hmem
    · have hc' : env.glfwWindowShouldClose frame = false := by simpa using hc
      simp only [hc', Bool.not_false, if_true] at h
      cases hrec : interactiveLoop env headless fuel (frame + 1)
          (ShowTestWindow s (env.frame frame)) with
      | none => simp [hrec] at h
      | some r' =>
        simp only [hrec, Option.some.injEq] at h
        subst h
        intro c hmem
        have hmem' : c ∈ Call.glfwWindowShouldClose :: (interactiveFrameCalls headless ++ r'.calls) :=
          hmem
        simp only [List.mem_cons, List.mem_append] at hmem'
        rcases hmem' with h1 | h2 | h3
        · exact Or.inl h1
        · exact Or.inr h2
        · exact ih _ _ r' hrec c h3

/-- The release calls are not among the start-up calls nor among the calls of a
frame. -/
theorem cleanup_disjoint (headless run_tests : Bool) :
    ∀ c ∈ cleanupCalls,
      c ∉ Call.glfwInit :: configureCalls headless ++ [Call.glfwCreateWindow] ∧
      c ∉ setupCalls run_tests ∧
      c ∉ headlessFrameCalls ∧
      c ∉ interactiveFrameCalls headless ∧
      c ≠ Call.glfwWindowShouldClose ∧
      c ≠ Call.printf "Running tests in headless mode...\n" ∧
      c ≠ Call.printf "Tests completed!\n" := by
  cases headless <;> cases run_tests <;> decide

/-- No release call is made before the shutdown sequence: not during start-up,
not by either main loop. -/
theorem cleanup_not_before (env : Env) (headless run_tests : Bool) (fuel : Nat)
    (r : LoopResult)
    (hloop : (if (headless && run_tests) = true then
        some { headlessLoop env HEADLESS_FRAMES 0 AppState.init with
          calls := Call.printf "Running tests in headless mode...\n" ::
            (headlessLoop env HEADLESS_FRAMES 0 AppState.init).calls ++
              [Call.printf "Tests completed!\n"] }
      else interactiveLoop env headless fuel 0 AppState.init) = some r) :
    ∀ c ∈ cleanupCalls,
      c ∉ (Call.glfwInit :: configureCalls headless ++ [Call.glfwCreateWindow]) ++
        setupCalls run_tests ++ r.calls := by
  intro c hc hmem
  obtain ⟨d1, d2, d3, d4, d5, d6, d7⟩ := cleanup_disjoint headless run_tests c hc
  rcases List.mem_append.mp hmem with hfirst | hrun
  rcases List.mem_append.mp hfirst with hstart | hsetup
  · exact d1 hstart
  · exact d2 hsetup
  · by_cases hb : (headless && run_tests) = true
    · simp only [hb, if_true, Option.some.injEq] at hloop
      subst hloop
      have hrun' : c ∈ Call.printf "Running tests in headless mode...\n" ::
          ((headlessLoop env HEADLESS_FRAMES 0 AppState.init).calls ++
            [Call.printf "Tests completed!\n"]) := hrun
      simp only [List.mem_cons, List.mem_append, List.mem_singleton, List.not_mem_nil,
        or_false] at hrun'
      rcases hrun' with h | h | h
      · exact d6 h
      · exact d3 (headlessLoop_calls_mem env _ _ _ c h)
      · exact d7 h
    · simp only [hb, if_false] at hloop
      rcases interactiveLoop_calls_mem env headless fuel 0 _ r hloop c hrun with h | h
      · exact d5 h
      · exact d4 h

/-- The calls of a run of `main` that got past initialisation are the earlier
calls followed by the shutdown sequence. -/
theorem main_calls (fuel : Nat) (env : Env) (out : Outcome)
    (hinit : env.glfwInit = true) (hwin : env.glfwCreateWindow = true)
    (hret : main fuel env = some out) :
    ∃ pre, out.calls = pre ++ cleanupCalls ∧ ∀ c ∈ cleanupCalls, c ∉ pre := by
  unfold main at hret
  simp only [hinit, hwin, Bool.not_true, Bool.false_eq_true, if_false] at hret
  split at hret
  · exact absurd hret (by simp)
  · rename_i r hloop
    simp only [Option.some.injEq] at hret
    subst hret
    exact ⟨_, rfl, cleanup_not_before env _ _ fuel r hloop⟩

/-- C9: on every run of `main` that passes initialisation and returns, the calls
end with the release steps in this order: stop the test engine, shut down the
OpenGL backend, shut down the GLFW backend, destroy the ImGui context, destroy
the test-engine context, destroy the window, terminate GLFW; none of them is
made before that, so each happens exactly once; and the one destruction of the
ImGui context comes before the one destruction of the test-engine context. -/
theorem cleanup_order (fuel : Nat) (env : Env) (out : Outcome)
    (hinit : env.glfwInit = true) (hwin : env.glfwCreateWindow = true)
    (hret : main fuel env = some out) :
    (∃ pre, out.calls = pre ++
        [ Call.ImGuiTestEngine_Stop, Call.ImGui_ImplOpenGL3_Shutdown,
          Call.ImGui_ImplGlfw_Shutdown, Call.ImGui_DestroyContext,
          Call.ImGuiTestEngine_DestroyContext, Call.glfwDestroyWindow, Call.glfwTerminate ] ∧
      ∀ c ∈ [ Call.ImGuiTestEngine_Stop, Call.ImGui_ImplOpenGL3_Shutdown,
          Call.ImGui_ImplGlfw_Shutdown, Call.ImGui_DestroyContext,
          Call.ImGuiTestEngine_DestroyContext, Call.glfwDestroyWindow, Call.glfwTerminate ],
        c ∉ pre) ∧
    (∀ c ∈ [ Call.ImGuiTestEngine_Stop, Call.ImGui_ImplOpenGL3_Shutdown,
          Call.ImGui_ImplGlfw_Shutdown, Call.ImGui_DestroyContext,
          Call.ImGuiTestEngine_DestroyContext, Call.glfwDestroyWindow, Call.glfwTerminate ],
        out.calls.count c = 1) ∧
    out.calls.indexOf Call.ImGui_DestroyContext
      < out.calls.indexOf Call.ImGuiTestEngine_DestroyContext := by
  obtain ⟨pre, hcalls, hpre⟩ := main_calls fuel env out hinit hwin hret
  refine ⟨⟨pre, hcalls, hpre⟩, ?_, ?_⟩
  · intro c hc
    have hc' : c ∈ cleanupCalls := hc
    rw [hcalls, List.count_append, List.count_eq_zero_of_not_mem (hpre c hc')]
    revert c
    decide
  · rw [hcalls,
      List.indexOf_append_of_not_mem (hpre Call.ImGui_DestroyContext (by decide)),
      List.indexOf_append_of_not_mem (hpre Call.ImGuiTestEngine_DestroyContext (by decide))]
    have h1 : cleanupCalls.indexOf Call.ImGui_DestroyContext = 3 := by decide
    have h2 : cleanupCalls.indexOf Call.ImGuiTestEngine_DestroyContext = 4 := by decide
    omega

/-- An interactive run closed at the first loop test. -/
theorem cleanup_order_witness :
    ∃ out, main 1 envCloseAtOnce = some out ∧
      (∃ pre, out.calls = pre ++
        [ Call.ImGuiTestEngine_Stop, Call.ImGui_ImplOpenGL3_Shutdown,
          Call.ImGui_ImplGlfw_Shutdown, Call.ImGui_DestroyContext,
          Call.ImGuiTestEngine_DestroyContext, Call.glfwDestroyWindow, Call.glfwTerminate ] ∧
      ∀ c ∈ [ Call.ImGuiTestEngine_Stop, Call.ImGui_ImplOpenGL3_Shutdown,
          Call.ImGui_ImplGlfw_Shutdown, Call.ImGui_DestroyContext,
          Call.ImGuiTestEngine_DestroyContext, Call.glfwDestroyWindow, Call.glfwTerminate ],
        c ∉ pre) ∧
      (∀ c ∈ [ Call.ImGuiTestEngine_Stop, Call.ImGui_ImplOpenGL3_Shutdown,
          Call.ImGui_ImplGlfw_Shutdown, Call.ImGui_DestroyContext,
          Call.ImGuiTestEngine_DestroyContext, Call.glfwDestroyWindow, Call.glfwTerminate ],
        out.calls.count c = 1) ∧
      out.calls.indexOf Call.ImGui_DestroyContext
        < out.calls.indexOf Call.ImGuiTestEngine_DestroyContext :=
  ⟨_, rfl, cleanup_order 1 envCloseAtOnce _ rfl rfl rfl⟩

/-! ## The registered scripts -/

end TestApp
